import Mathlib

/-!
# LeaseSentinel — verification of the notification core

Shallow embedding of the LeaseSentinel notification core:

* `src/lib/date-utils.ts` — notice-window evaluator (pure date arithmetic),
* `src/lib/webhook.ts` — notification dispatcher (`dispatchAlert`),
* `src/app/api/cron/check/route.ts` — batch processor (cron `GET` handler),
* `src/models/schema.ts` — the `Sentinel` and log-entry data model.

Pure functions are translated directly; the asynchronous sweep is embedded as
a deterministic fold over the queried records, parameterised by an oracle that
gives each per-record unit's dispatch settlement.  Theorems about the
specification's guarantees follow the definitions.
-/

namespace LeaseSentinel

/-! ## Date model

A calendar date `(year, month, day)` as denoted by a `YYYY-MM-DD` string.
JavaScript's `new Date("YYYY-MM-DD")` interprets such a string as UTC midnight
of the named proleptic-Gregorian day; its `getTime()` is then a whole multiple
of `86400000` ms.  We model the day count with the standard civil-calendar
day-number function and the millisecond clock as `86400000 ×` (days since
1970-01-01). -/

/-- A parsed calendar date. -/
structure Ymd where
  year : Nat
  month : Nat
  day : Nat
  deriving DecidableEq, Repr

/-- Gregorian leap-year test (as in ECMAScript's calendar arithmetic). -/
def isLeap (y : Nat) : Bool :=
  (y % 4 == 0 && y % 100 != 0) || (y % 400 == 0)

/-- Number of days in month `m` (1–12) of year `y`. -/
def daysInMonth (y m : Nat) : Nat :=
  if m = 2 then (if isLeap y then 29 else 28)
  else if m = 4 ∨ m = 6 ∨ m = 9 ∨ m = 11 then 30
  else 31

/-- Days in the months strictly before month `m` of year `y`. -/
def daysBeforeMonth (y m : Nat) : Nat :=
  (match m with
   | 1 => 0 | 2 => 31 | 3 => 59 | 4 => 90 | 5 => 120 | 6 => 151 | 7 => 181
   | 8 => 212 | 9 => 243 | 10 => 273 | 11 => 304 | 12 => 334
   | _ => 0)
  + (if 3 ≤ m then (if isLeap y then 1 else 0) else 0)

/-- Number of leap years among years `0, …, y - 1`: the multiples of 4 in
that range, minus the multiples of 100, plus the multiples of 400. -/
def leapsBefore (y : Nat) : Nat :=
  (y + 3) / 4 - (y + 99) / 100 + (y + 399) / 400

/-- Days in the years strictly before year `y` (counting from year 0). -/
def daysBeforeYear (y : Nat) : Nat :=
  365 * y + leapsBefore y

/-- Day number of a date, counted from 0000-01-01 (proleptic Gregorian, UTC). -/
def toEpochDay (d : Ymd) : Nat :=
  daysBeforeYear d.year + daysBeforeMonth d.year d.month + (d.day - 1)

/-- The date names an existing calendar day renderable as `YYYY-MM-DD`. -/
def validYmd (d : Ymd) : Bool :=
  1 ≤ d.month && d.month ≤ 12 && 1 ≤ d.day && d.day ≤ daysInMonth d.year d.month
    && d.year ≤ 9999

/-- Day number of 1970-01-01 counted from 0000-01-01. -/
def epochDay1970 : Nat := 719528

/-- Milliseconds per day, the divisor used by `isWithinNoticeWindow`. -/
def msPerDay : Int := 86400000

/-- Models `Date.prototype.getTime` for a date parsed from a `YYYY-MM-DD` string:
milliseconds since the Unix epoch of that day's UTC midnight. -/
def jsGetTime (d : Ymd) : Int :=
  msPerDay * ((toEpochDay d : Int) - (epochDay1970 : Int))

/-- Computes `Math.ceil` of the real quotient `a / b`, for `b > 0`
(the rounding `isWithinNoticeWindow` applies to `diffMs / msPerDay`):
`⌈a / b⌉ = -⌊-a / b⌋`, with `Int` division rounding toward `-∞` for `b > 0`. -/
def jsCeilDiv (a b : Int) : Int := -((-a) / b)

/-- Decimal digit test (`0`–`9`). -/
def isDigitChar (c : Char) : Bool := 48 ≤ c.toNat && c.toNat ≤ 57

/-- Numeric value of a decimal digit character. -/
def digitVal (c : Char) : Nat := c.toNat - 48

/-- The date denoted by the digit characters of a `YYYY-MM-DD` string. -/
def mkYmd (y1 y2 y3 y4 m1 m2 d1 d2 : Char) : Ymd :=
  { year := 1000 * digitVal y1 + 100 * digitVal y2 + 10 * digitVal y3 + digitVal y4
    month := 10 * digitVal m1 + digitVal m2
    day := 10 * digitVal d1 + digitVal d2 }

/-- Models `new Date(s)` restricted to the date-only `YYYY-MM-DD` format used
throughout LeaseSentinel (the schema enforces `/^\d\x7b4\x7d-\d\x7b2\x7d-\d\x7b2\x7d$/` on
`triggerDate`).  A string not in that format, or naming a day that does not
exist in the calendar, produces an *Invalid Date* whose `getTime()` is `NaN`;
we model that absorbing invalid value as `none`.  The calendar check is
`validYmd`; its `year ≤ 9999` component is vacuous for four-digit years. -/
def parseISODate (s : String) : Option Ymd :=
  match s.toList with
  | [y1, y2, y3, y4, h1, m1, m2, h2, d1, d2] =>
    if h1 == '-' && h2 == '-' && isDigitChar y1 && isDigitChar y2 && isDigitChar y3
        && isDigitChar y4 && isDigitChar m1 && isDigitChar m2 && isDigitChar d1
        && isDigitChar d2 then
      if validYmd (mkYmd y1 y2 y3 y4 m1 m2 d1 d2) then
        some (mkYmd y1 y2 y3 y4 m1 m2 d1 d2)
      else none
    else none
  | _ => none

/-- Embedding of `isWithinNoticeWindow` from `src/lib/date-utils.ts`:

```ts
const trigger = new Date(triggerDate);
const today = new Date(todayDate);
const diffMs = trigger.getTime() - today.getTime();
const diffDays = Math.ceil(diffMs / (1000 * 60 * 60 * 24));
return diffDays >= 0 && diffDays <= windowDays;
```

When either parse yields an Invalid Date, `diffMs`, and hence `diffDays`, is
`NaN`; both comparisons on `NaN` are `false`, so the function returns `false`.
The fall-through branch models exactly that. -/
def isWithinNoticeWindow (triggerDate todayDate : String) (windowDays : Int) : Bool :=
  match parseISODate triggerDate, parseISODate todayDate with
  | some trigger, some today =>
    let diffMs : Int := jsGetTime trigger - jsGetTime today
    let diffDays : Int := jsCeilDiv diffMs msPerDay
    decide (0 ≤ diffDays) && decide (diffDays ≤ windowDays)
  | _, _ => false

/-- Embedding of `isDateMatch` from `src/lib/date-utils.ts`: exact string
equality of two `YYYY-MM-DD` strings. -/
def isDateMatch (targetDate currentDate : String) : Bool :=
  targetDate == currentDate

/-- Whole-calendar-day difference `target - reference` (the specification's
`daysBetween`). -/
def daysBetween (target reference : Ymd) : Int :=
  (toEpochDay target : Int) - (toEpochDay reference : Int)

/-! ## Arithmetic facts about the day-number function -/

theorem leapsBefore_succ (y : Nat) :
    leapsBefore (y + 1) = leapsBefore y + (if isLeap y then 1 else 0) := by
  unfold leapsBefore isLeap
  simp only [Bool.or_eq_true, Bool.and_eq_true, beq_iff_eq, bne_iff_ne]
  split <;> omega

theorem daysBeforeYear_succ (y : Nat) :
    daysBeforeYear (y + 1) = daysBeforeYear y + 365 + (if isLeap y then 1 else 0) := by
  unfold daysBeforeYear
  rw [leapsBefore_succ]
  omega

theorem daysBeforeYear_mono {a b : Nat} (h : a ≤ b) :
    daysBeforeYear a ≤ daysBeforeYear b := by
  unfold daysBeforeYear leapsBefore
  omega

theorem daysBeforeYear_succ_le {a b : Nat} (h : a < b) :
    daysBeforeYear a + 365 + (if isLeap a then 1 else 0) ≤ daysBeforeYear b := by
  have h1 : daysBeforeYear (a + 1) ≤ daysBeforeYear b := daysBeforeYear_mono h
  have h2 := daysBeforeYear_succ a
  omega

theorem dayOfYear_lt (y m d : Nat) (h1 : 1 ≤ m) (h2 : m ≤ 12) (h3 : 1 ≤ d)
    (h4 : d ≤ daysInMonth y m) :
    daysBeforeMonth y m + (d - 1) + 1 ≤ 365 + (if isLeap y then 1 else 0) := by
  interval_cases m <;> cases hy : isLeap y <;>
    simp [daysBeforeMonth, daysInMonth, hy] at h4 ⊢ <;> omega

theorem daysBeforeMonth_succ (y m : Nat) (h1 : 1 ≤ m) (h2 : m ≤ 11) :
    daysBeforeMonth y (m + 1) = daysBeforeMonth y m + daysInMonth y m := by
  interval_cases m <;> cases hy : isLeap y <;>
    simp [daysBeforeMonth, daysInMonth, hy]

theorem daysBeforeMonth_mono (y a b : Nat) (h1 : 1 ≤ a) (h : a ≤ b) (hb : b ≤ 12) :
    daysBeforeMonth y a ≤ daysBeforeMonth y b := by
  induction b with
  | zero => omega
  | succ n ih =>
    by_cases hab : a = n + 1
    · subst hab; exact le_refl _
    · have han : a ≤ n := by omega
      have hn1 : 1 ≤ n := by omega
      have hle := ih han (by omega)
      have hs := daysBeforeMonth_succ y n hn1 (by omega)
      omega

theorem monthDay_inj {y m1 d1 m2 d2 : Nat}
    (hm1 : 1 ≤ m1) (hm1' : m1 ≤ 12) (hd1 : 1 ≤ d1) (hd1' : d1 ≤ daysInMonth y m1)
    (hm2 : 1 ≤ m2) (hm2' : m2 ≤ 12) (hd2 : 1 ≤ d2) (hd2' : d2 ≤ daysInMonth y m2)
    (heq : daysBeforeMonth y m1 + (d1 - 1) = daysBeforeMonth y m2 + (d2 - 1)) :
    m1 = m2 ∧ d1 = d2 := by
  rcases Nat.lt_trichotomy m1 m2 with h | h | h
  · exfalso
    have hs := daysBeforeMonth_succ y m1 hm1 (by omega)
    have hle := daysBeforeMonth_mono y (m1 + 1) m2 (by omega) h hm2'
    omega
  · subst h
    exact ⟨rfl, by omega⟩
  · exfalso
    have hs := daysBeforeMonth_succ y m2 hm2 (by omega)
    have hle := daysBeforeMonth_mono y (m2 + 1) m1 (by omega) h hm1'
    omega

theorem validYmd_iff {d : Ymd} : validYmd d = true ↔
    1 ≤ d.month ∧ d.month ≤ 12 ∧ 1 ≤ d.day ∧ d.day ≤ daysInMonth d.year d.month
      ∧ d.year ≤ 9999 := by
  unfold validYmd
  simp [Bool.and_eq_true, decide_eq_true_eq, and_assoc]

/-- Two valid dates with the same day number are the same date. -/
theorem toEpochDay_inj {a b : Ymd} (ha : validYmd a = true) (hb : validYmd b = true)
    (h : toEpochDay a = toEpochDay b) : a = b := by
  obtain ⟨ham, ham', had, had', hay⟩ := validYmd_iff.mp ha
  obtain ⟨hbm, hbm', hbd, hbd', hby⟩ := validYmd_iff.mp hb
  unfold toEpochDay at h
  have hyy : a.year = b.year := by
    rcases Nat.lt_trichotomy a.year b.year with hy | hy | hy
    · exfalso
      have h1 := dayOfYear_lt a.year a.month a.day ham ham' had had'
      have h2 := daysBeforeYear_succ_le hy
      omega
    · exact hy
    · exfalso
      have h1 := dayOfYear_lt b.year b.month b.day hbm hbm' hbd hbd'
      have h2 := daysBeforeYear_succ_le hy
      omega
  rw [hyy] at h had'
  have heq : daysBeforeMonth b.year a.month + (a.day - 1)
      = daysBeforeMonth b.year b.month + (b.day - 1) := by omega
  obtain ⟨hm, hd⟩ := monthDay_inj ham ham' had had' hbm hbm' hbd hbd' heq
  cases a
  cases b
  simp_all

/-! ## The notice-window evaluator against its specification -/

theorem jsGetTime_sub (t r : Ymd) :
    jsGetTime t - jsGetTime r = msPerDay * daysBetween t r := by
  unfold jsGetTime daysBetween
  ring

theorem jsCeilDiv_mul (k : Int) : jsCeilDiv (msPerDay * k) msPerDay = k := by
  unfold jsCeilDiv msPerDay
  have h : -((86400000 : Int) * k) = 86400000 * (-k) := by ring
  rw [h, Int.mul_ediv_cancel_left _ (by norm_num)]
  ring

theorem parseISODate_valid {s : String} {t : Ymd} (h : parseISODate s = some t) :
    validYmd t = true := by
  unfold parseISODate at h
  split at h
  · split at h
    · split at h
      · rename_i hv
        injection h with h'
        rw [← h']
        exact hv
      · exact absurd h (by simp)
    · exact absurd h (by simp)
  · exact absurd h (by simp)

/-- On successfully parsed inputs, the code's `Math.ceil`-of-millisecond
arithmetic computes exactly the whole-calendar-day difference. -/
theorem isWithinNoticeWindow_parsed {target reference : String} {t r : Ymd} (w : Int)
    (ht : parseISODate target = some t) (hr : parseISODate reference = some r) :
    isWithinNoticeWindow target reference w
      = (decide (0 ≤ daysBetween t r) && decide (daysBetween t r ≤ w)) := by
  unfold isWithinNoticeWindow
  rw [ht, hr]
  simp only [jsGetTime_sub, jsCeilDiv_mul]

/-- C4: for valid `YYYY-MM-DD` dates, `isWithinNoticeWindow target reference w`
is `true` iff `0 ≤ daysBetween target reference ≤ w` with `daysBetween` the
whole-calendar-day difference; it is inclusive on both ends, a zero window
matches only the reference date itself, a target strictly before the reference
is always `false`, and the leap-year-spanning interval 2024-02-15 → 2024-03-15
counts as 29 days apart, hence within a 30-day window. -/
theorem isWithinNoticeWindow_window_spec (target reference : String) (t r : Ymd)
    (w : Int) (ht : parseISODate target = some t)
    (hr : parseISODate reference = some r) :
    (isWithinNoticeWindow target reference w = true ↔
        0 ≤ daysBetween t r ∧ daysBetween t r ≤ w)
    ∧ (isWithinNoticeWindow target reference 0 = true ↔ t = r)
    ∧ (daysBetween t r < 0 → isWithinNoticeWindow target reference w = false)
    ∧ daysBetween ⟨2024, 3, 15⟩ ⟨2024, 2, 15⟩ = 29
    ∧ isWithinNoticeWindow "2024-03-15" "2024-02-15" 30 = true := by
  have key : ∀ v : Int, isWithinNoticeWindow target reference v = true ↔
      0 ≤ daysBetween t r ∧ daysBetween t r ≤ v := by
    intro v
    rw [isWithinNoticeWindow_parsed v ht hr]
    simp [Bool.and_eq_true, decide_eq_true_eq]
  refine ⟨key w, ?_, ?_, by decide, by decide⟩
  · rw [key 0]
    constructor
    · rintro ⟨h1, h2⟩
      have hz : toEpochDay t = toEpochDay r := by
        unfold daysBetween at h1 h2
        omega
      exact toEpochDay_inj (parseISODate_valid ht) (parseISODate_valid hr) hz
    · rintro rfl
      unfold daysBetween
      omega
  · intro hneg
    cases hb : isWithinNoticeWindow target reference w
    · rfl
    · exfalso
      have := (key w).mp hb
      omega

/-- Witness for C4 at the leap-year example from the specification. -/
theorem isWithinNoticeWindow_window_spec_witness :
    (isWithinNoticeWindow "2024-03-15" "2024-02-15" 30 = true ↔
        0 ≤ daysBetween ⟨2024, 3, 15⟩ ⟨2024, 2, 15⟩
          ∧ daysBetween ⟨2024, 3, 15⟩ ⟨2024, 2, 15⟩ ≤ 30)
    ∧ (isWithinNoticeWindow "2024-03-15" "2024-02-15" 0 = true ↔
        (⟨2024, 3, 15⟩ : Ymd) = ⟨2024, 2, 15⟩)
    ∧ (daysBetween ⟨2024, 3, 15⟩ ⟨2024, 2, 15⟩ < 0 →
        isWithinNoticeWindow "2024-03-15" "2024-02-15" 30 = false)
    ∧ daysBetween ⟨2024, 3, 15⟩ ⟨2024, 2, 15⟩ = 29
    ∧ isWithinNoticeWindow "2024-03-15" "2024-02-15" 30 = true :=
  isWithinNoticeWindow_window_spec "2024-03-15" "2024-02-15" ⟨2024, 3, 15⟩
    ⟨2024, 2, 15⟩ 30 (by decide) (by decide)

/-- C10: `isWithinNoticeWindow` is total — it returns a boolean for every pair
of input strings — and whenever either input fails to parse as a calendar date
(the `NaN` day-difference case) the result is `false`. -/
theorem isWithinNoticeWindow_total_invalid_false (s t : String) (w : Int) :
    (isWithinNoticeWindow s t w = true ∨ isWithinNoticeWindow s t w = false)
    ∧ ((parseISODate s = none ∨ parseISODate t = none) →
        isWithinNoticeWindow s t w = false) := by
  constructor
  · cases hb : isWithinNoticeWindow s t w
    · exact Or.inr rfl
    · exact Or.inl rfl
  · intro h
    unfold isWithinNoticeWindow
    rcases h with h | h
    · rw [h]
    · rw [h]
      cases hs : parseISODate s <;> rfl

/-- Witness for C10 on an unparseable input. -/
theorem isWithinNoticeWindow_total_invalid_false_witness :
    isWithinNoticeWindow "hello" "2025-01-01" 7 = false :=
  (isWithinNoticeWindow_total_invalid_false "hello" "2025-01-01" 7).2
    (Or.inl (by decide))

/-! ## Notification dispatcher (`src/lib/webhook.ts`)

`dispatchAlert` awaits one `fetch` with an `AbortController` that fires after
5 seconds.  The `await` settles in exactly one of three ways: the response
arrived (within the timeout), the abort fired first and `fetch` rejected with
an `AbortError`, or the transport failed with some other error.  We embed the
settlement as a value of `FetchOutcome`; both `catch` branches only log and
return `false`, so no fault escapes. -/

/-- A JSON object payload as an ordered list of key/value fields
(all field values in this codebase are strings). -/
abbrev Payload := List (String × String)

/-- The three ways the awaited `fetch` inside `dispatchAlert` can settle. -/
inductive FetchOutcome where
  /-- The endpoint answered with this HTTP status before the 5 s abort. -/
  | response (status : Nat)
  /-- The 5 s timer fired and aborted the in-flight request. -/
  | abortError
  /-- A transport/network failure rejected the fetch. -/
  | networkError (msg : String)
  deriving DecidableEq, Repr

/-- The `Response.ok` test: the status is in the success class `200–299`. -/
def responseOk (status : Nat) : Bool :=
  200 ≤ status && status < 300

/-- Embedding of `dispatchAlert(url, payload)` from `src/lib/webhook.ts`,
parameterised by the settlement of its `fetch`:

* response with `!response.ok` → log, `return false`;
* response with `response.ok` → `return true`;
* `AbortError` (timeout) or any other error → `catch` logs, `return false`. -/
def dispatchAlert (url : String) (payload : Payload) (outcome : FetchOutcome) : Bool :=
  match outcome with
  | .response status => if responseOk status then true else false
  | .abortError => false
  | .networkError _ => false

/-- C2: `dispatchAlert` always settles with a boolean — never a fault — and
that boolean is `true` iff the endpoint answered, within the timeout, with a
success-class (2xx) response; every non-success response, transport failure,
or timeout yields `false`. -/
theorem dispatchAlert_total_iff_success (url : String) (payload : Payload)
    (outcome : FetchOutcome) :
    (dispatchAlert url payload outcome = true
        ∨ dispatchAlert url payload outcome = false)
    ∧ (dispatchAlert url payload outcome = true ↔
        ∃ status, outcome = .response status ∧ 200 ≤ status ∧ status < 300) := by
  constructor
  · cases hb : dispatchAlert url payload outcome
    · exact Or.inr rfl
    · exact Or.inl rfl
  · cases outcome with
    | response status =>
      constructor
      · intro h
        refine ⟨status, rfl, ?_⟩
        simp only [dispatchAlert] at h
        split at h
        · rename_i hs
          simp only [responseOk, Bool.and_eq_true, decide_eq_true_eq] at hs
          exact hs
        · exact absurd h (by simp)
      · rintro ⟨s, hs, h1, h2⟩
        injection hs with hs
        subst hs
        simp [dispatchAlert, responseOk, h1, h2]
    | abortError =>
      simp [dispatchAlert]
    | networkError msg =>
      simp [dispatchAlert]

/-! ## Data model (`src/models/schema.ts`) -/

/-- Values of `SentinelStatusEnum`: lifecycle states of a sentinel. -/
inductive SentinelStatus where
  | PENDING
  | FIRED
  deriving DecidableEq, Repr

/-- Values of `LogStatusEnum`: outcome recorded by a dispatch-log entry. -/
inductive LogStatus where
  | SUCCESS
  | FAILED
  deriving DecidableEq, Repr

/-- Values of `NotificationMethodEnum`: supported notification channels. -/
inductive NotificationMethod where
  | slack
  | email
  | sms
  | custom
  deriving DecidableEq, Repr

/-- The string value of a `NotificationMethod` as stored in Firestore. -/
def methodName : NotificationMethod → String
  | .slack => "slack"
  | .email => "email"
  | .sms => "sms"
  | .custom => "custom"

/-- A `Sentinel` record (`SentinelSchema`), as read by the cron route.
`webhookUrl` is the deprecated legacy field, unused by the current route. -/
structure Sentinel where
  userId : String
  eventName : String
  triggerDate : String
  originalClause : String
  webhookUrl : Option String
  notificationMethod : NotificationMethod
  notificationTarget : String
  status : SentinelStatus
  createdAt : String
  deriving DecidableEq, Repr

/-- A Firestore document of the `sentinels` collection: its id plus its data. -/
structure SentinelDoc where
  id : String
  data : Sentinel
  deriving DecidableEq, Repr

/-- A document of the `logs` collection (`LogSchema`). -/
structure LogRecord where
  sentinelId : String
  firedAt : String
  status : LogStatus
  payload : Payload
  deriving DecidableEq, Repr

/-! ## Batch processor (`src/app/api/cron/check/route.ts`)

The route authorizes the request, queries `sentinels` for
`triggerDate == today && status == "PENDING"`, maps every matched document to
an independent async unit (dispatch, then conditional status update plus one
log append), joins them with `Promise.allSettled`, and returns
`{ success: true, processed: snapshot.docs.length }`.

The embedding sequentialises the concurrent fan-out: the units touch disjoint
documents and only append to the log collection, so a sweep's effect is the
per-document effect applied document-wise, with log entries collected in
snapshot order.  Each unit's dispatch settlement comes from an oracle
`beh : Nat → DispatchBehavior` indexed by the document's position in the query
snapshot; `.returns ok` models `await dispatchAlert(...)` resolving with `ok`,
and `.throws` models an unexpected exception/rejection inside the unit, whose
rejected promise `Promise.allSettled` collects without disturbing the rest. -/

/-- Environment of the route: the two `process.env` values it reads. -/
structure CronEnv where
  cronSecret : Option String
  makeWebhookUrl : Option String
  deriving DecidableEq, Repr

/-- JavaScript template-literal rendering of a possibly-undefined env var. -/
def envString : Option String → String
  | some s => s
  | none => "undefined"

/-- The value compared against the `Authorization` header:
```Bearer ${process.env.CRON_SECRET}` ``. -/
def expectedAuth (env : CronEnv) : String :=
  "Bearer " ++ envString env.cronSecret

/-- How one per-record async unit's dispatch settles. -/
inductive DispatchBehavior where
  /-- The awaited `dispatchAlert(dispatchUrl, payload)` resolved with this boolean. -/
  | returns (ok : Bool)
  /-- The unit's promise rejected with an unexpected exception. -/
  | throws
  deriving DecidableEq, Repr

/-- Payload sent directly to the user's URL for a `custom` sentinel. -/
def customPayload (d : Sentinel) : Payload :=
  [("event", d.eventName), ("date", d.triggerDate), ("clause", d.originalClause)]

/-- Payload routed through the central `MAKE_WEBHOOK_URL` dispatcher for
slack/email/sms sentinels. -/
def routedPayload (d : Sentinel) : Payload :=
  [("method", methodName d.notificationMethod), ("handle", d.notificationTarget),
   ("event", d.eventName), ("date", d.triggerDate), ("clause", d.originalClause)]

/-- Payload stored in a SUCCESS log entry by the route. -/
def successLogPayload (d : Sentinel) : Payload :=
  [("method", methodName d.notificationMethod), ("event", d.eventName),
   ("date", d.triggerDate)]

/-- Payload stored in a FAILED log entry by the route. -/
def failureLogPayload (d : Sentinel) : Payload :=
  [("method", methodName d.notificationMethod), ("event", d.eventName),
   ("date", d.triggerDate), ("error", "Webhook dispatch failed")]

/-- The log entry the route appends for document `doc` when the dispatch
resolved with `ok` (`firedAt` is `new Date().toISOString()`, modelled by the
`now` parameter). -/
def mkLogRecord (now : String) (doc : SentinelDoc) (ok : Bool) : LogRecord :=
  { sentinelId := doc.id
    firedAt := now
    status := if ok then .SUCCESS else .FAILED
    payload := if ok then successLogPayload doc.data else failureLogPayload doc.data }

/-- Lines 43–65 of the route: choose the dispatch URL and payload.  A `custom`
sentinel is dispatched straight to its `notificationTarget`; otherwise the
route requires `MAKE_WEBHOOK_URL` and returns early (`none`) when it is not
configured. -/
def resolveTarget (env : CronEnv) (d : Sentinel) : Option (String × Payload) :=
  if d.notificationMethod = .custom then
    some (d.notificationTarget, customPayload d)
  else
    match env.makeWebhookUrl with
    | none => none
    | some u => some (u, routedPayload d)

/-- Observable effect of one per-record async unit. -/
structure RecordOutcome where
  /-- Holds `some FIRED` iff the unit ran `doc.ref.update(\x7b status: "FIRED" \x7d)`. -/
  newStatus : Option SentinelStatus
  /-- Log entries the unit appended to the `logs` collection. -/
  logs : List LogRecord
  /-- Dispatch attempts the unit made: `(url, payload)` per `dispatchAlert` call. -/
  sent : List (String × Payload)
  /-- The unit's promise rejected (collected, not propagated, by `allSettled`). -/
  rejected : Bool
  deriving DecidableEq, Repr

/-- One per-record async unit (the body of `snapshot.docs.map`): resolve the
target, dispatch, then either update the status and append a SUCCESS entry, or
leave the status and append a FAILED entry.  A missing `MAKE_WEBHOOK_URL` for
a non-custom sentinel returns early with no effect; a thrown exception aborts
the unit before any update or append. -/
def processRecord (env : CronEnv) (now : String) (doc : SentinelDoc)
    (beh : DispatchBehavior) : RecordOutcome :=
  match resolveTarget env doc.data with
  | none => { newStatus := none, logs := [], sent := [], rejected := false }
  | some (url, payload) =>
    match beh with
    | .throws =>
      { newStatus := none, logs := [], sent := [(url, payload)], rejected := true }
    | .returns true =>
      { newStatus := some .FIRED, logs := [mkLogRecord now doc true]
        sent := [(url, payload)], rejected := false }
    | .returns false =>
      { newStatus := none, logs := [mkLogRecord now doc false]
        sent := [(url, payload)], rejected := false }

/-- The query predicate of the sweep:
`triggerDate == today && status == "PENDING"`. -/
def isDue (today : String) (doc : SentinelDoc) : Bool :=
  doc.data.triggerDate == today && doc.data.status == SentinelStatus.PENDING

/-- The query snapshot: documents matching `isDue`, in collection order. -/
def dueDocs (today : String) (docs : List SentinelDoc) : List SentinelDoc :=
  docs.filter (isDue today)

/-- Rank of position `j` within the query snapshot: how many due documents
precede position `j` in the collection. -/
def dueRank (today : String) (docs : List SentinelDoc) (j : Nat) : Nat :=
  (dueDocs today (docs.take j)).length

/-- Apply a unit's (at most one) status update to its own document. -/
def applyOutcome (o : RecordOutcome) (doc : SentinelDoc) : SentinelDoc :=
  match o.newStatus with
  | some s => { doc with data := { doc.data with status := s } }
  | none => doc

/-- Aggregate observable result of one sweep over the `sentinels` collection. -/
structure SweepOut where
  /-- The collection after the sweep, document-wise. -/
  docs : List SentinelDoc
  /-- Log entries appended during the sweep, in snapshot order. -/
  logs : List LogRecord
  /-- All dispatch attempts `(url, payload)` made during the sweep. -/
  sent : List (String × Payload)
  /-- The value `snapshot.docs.length`: the number of documents matched by the query. -/
  matched : Nat
  deriving DecidableEq, Repr

/-- The sweep over the collection: filter by the query predicate and run one
unit per matched document, unit `i` settling as `beh i` dictates.
Sequentialisation of the `snapshot.docs.map` / `Promise.allSettled` fan-out. -/
def sweepAux (env : CronEnv) (now today : String) (beh : Nat → DispatchBehavior) :
    Nat → List SentinelDoc → SweepOut
  | _, [] => { docs := [], logs := [], sent := [], matched := 0 }
  | i, doc :: rest =>
    if isDue today doc then
      let o := processRecord env now doc (beh i)
      let r := sweepAux env now today beh (i + 1) rest
      { docs := applyOutcome o doc :: r.docs, logs := o.logs ++ r.logs
        sent := o.sent ++ r.sent, matched := r.matched + 1 }
    else
      let r := sweepAux env now today beh i rest
      { docs := doc :: r.docs, logs := r.logs, sent := r.sent, matched := r.matched }

/-- One sweep, starting the snapshot index at 0. -/
def runSweep (env : CronEnv) (now today : String) (beh : Nat → DispatchBehavior)
    (docs : List SentinelDoc) : SweepOut :=
  sweepAux env now today beh 0 docs

/-- The durable store touched by the route: the two Firestore collections. -/
structure Store where
  sentinels : List SentinelDoc
  logs : List LogRecord
  deriving DecidableEq, Repr

/-- How the route's `GET` answers the scheduler. -/
inductive CronResponse where
  /-- The response `new NextResponse("Unauthorized", \x7b status: 401 \x7d)`. -/
  | unauthorized
  /-- The store query threw; the handler's promise rejects with the error. -/
  | queryError
  /-- The response `NextResponse.json(\x7b success: true, processed \x7d)`. -/
  | ok (processed : Nat)
  deriving DecidableEq, Repr

/-- Embedding of the route's `GET` handler: authorization gate, store query
(whose possible failure is the `queryFails` parameter — the route has no
`try`/`catch` around it, so a query fault rejects the handler before any
record is touched), then the sweep and the aggregate response. -/
def cronGET (env : CronEnv) (now today : String) (authHeader : Option String)
    (queryFails : Bool) (beh : Nat → DispatchBehavior) (store : Store) :
    CronResponse × Store × List (String × Payload) :=
  if authHeader ≠ some (expectedAuth env) then
    (.unauthorized, store, [])
  else if queryFails then
    (.queryError, store, [])
  else
    let out := runSweep env now today beh store.sentinels
    (.ok out.matched, { sentinels := out.docs, logs := store.logs ++ out.logs }, out.sent)

/-! ## Structure of a sweep -/

/-- Map with the element's index, starting the count at `i`. -/
def mapIdxFrom {α β : Type} (g : Nat → α → β) : Nat → List α → List β
  | _, [] => []
  | i, a :: as => g i a :: mapIdxFrom g (i + 1) as

theorem isDue_iff {today : String} {d : SentinelDoc} :
    isDue today d = true ↔
      d.data.triggerDate = today ∧ d.data.status = SentinelStatus.PENDING := by
  simp [isDue, Bool.and_eq_true, beq_iff_eq]

theorem sweepAux_matched (env : CronEnv) (now today : String)
    (beh : Nat → DispatchBehavior) (i : Nat) (docs : List SentinelDoc) :
    (sweepAux env now today beh i docs).matched = (dueDocs today docs).length := by
  induction docs generalizing i with
  | nil => rfl
  | cons d rest ih =>
    by_cases hd : isDue today d
    · simp [sweepAux, hd, dueDocs, List.filter_cons, ih]
    · simp [sweepAux, hd, dueDocs, List.filter_cons, ih]

theorem sweepAux_logs (env : CronEnv) (now today : String)
    (beh : Nat → DispatchBehavior) (i : Nat) (docs : List SentinelDoc) :
    (sweepAux env now today beh i docs).logs
      = (mapIdxFrom (fun k d => (processRecord env now d (beh k)).logs) i
          (dueDocs today docs)).flatten := by
  induction docs generalizing i with
  | nil => rfl
  | cons d rest ih =>
    by_cases hd : isDue today d
    · simp [sweepAux, hd, dueDocs, List.filter_cons, ih, mapIdxFrom]
    · simp [sweepAux, hd, dueDocs, List.filter_cons, ih]

theorem sweepAux_sent (env : CronEnv) (now today : String)
    (beh : Nat → DispatchBehavior) (i : Nat) (docs : List SentinelDoc) :
    (sweepAux env now today beh i docs).sent
      = (mapIdxFrom (fun k d => (processRecord env now d (beh k)).sent) i
          (dueDocs today docs)).flatten := by
  induction docs generalizing i with
  | nil => rfl
  | cons d rest ih =>
    by_cases hd : isDue today d
    · simp [sweepAux, hd, dueDocs, List.filter_cons, ih, mapIdxFrom]
    · simp [sweepAux, hd, dueDocs, List.filter_cons, ih]

theorem sweepAux_docs_length (env : CronEnv) (now today : String)
    (beh : Nat → DispatchBehavior) (i : Nat) (docs : List SentinelDoc) :
    (sweepAux env now today beh i docs).docs.length = docs.length := by
  induction docs generalizing i with
  | nil => rfl
  | cons d rest ih =>
    by_cases hd : isDue today d
    · simp [sweepAux, hd, ih]
    · simp [sweepAux, hd, ih]

theorem dueRank_cons_due {today : String} {a : SentinelDoc}
    (rest : List SentinelDoc) (k : Nat) (ha : isDue today a = true) :
    dueRank today (a :: rest) (k + 1) = dueRank today rest k + 1 := by
  simp [dueRank, dueDocs, List.take_succ_cons, List.filter_cons, ha]

theorem dueRank_cons_notdue {today : String} {a : SentinelDoc}
    (rest : List SentinelDoc) (k : Nat) (ha : isDue today a = false) :
    dueRank today (a :: rest) (k + 1) = dueRank today rest k := by
  simp [dueRank, dueDocs, List.take_succ_cons, List.filter_cons, ha]

/-- Positional characterisation of a sweep: each document's fate depends only
on that document, its own unit's settlement (at its snapshot rank), and the
environment — never on the other units. -/
theorem sweepAux_docs_getElem? (env : CronEnv) (now today : String)
    (beh : Nat → DispatchBehavior) (i : Nat) (docs : List SentinelDoc) (j : Nat) :
    (sweepAux env now today beh i docs).docs[j]?
      = (docs[j]?).map (fun d =>
          if isDue today d then
            applyOutcome (processRecord env now d (beh (i + dueRank today docs j))) d
          else d) := by
  induction docs generalizing i j with
  | nil => simp [sweepAux]
  | cons a rest ih =>
    by_cases ha : isDue today a
    · cases j with
      | zero =>
        simp [sweepAux, ha, dueRank, dueDocs]
      | succ k =>
        have hr : i + dueRank today (a :: rest) (k + 1)
            = (i + 1) + dueRank today rest k := by
          rw [dueRank_cons_due rest k ha]
          omega
        simp only [sweepAux, ha, if_true, List.getElem?_cons_succ, hr]
        exact ih (i + 1) k
    · cases j with
      | zero =>
        simp [sweepAux, ha, dueRank, dueDocs]
      | succ k =>
        have ha' : isDue today a = false := by simpa using ha
        have hr : i + dueRank today (a :: rest) (k + 1) = i + dueRank today rest k := by
          rw [dueRank_cons_notdue rest k ha']
        simp only [sweepAux, ha', Bool.false_eq_true, if_false, List.getElem?_cons_succ, hr]
        exact ih i k

/-- A sweep over a collection with no due documents does nothing. -/
theorem runSweep_no_due (env : CronEnv) (now today : String)
    (beh : Nat → DispatchBehavior) (docs : List SentinelDoc)
    (h : ∀ d ∈ docs, isDue today d = false) :
    runSweep env now today beh docs = { docs := docs, logs := [], sent := [], matched := 0 } := by
  unfold runSweep
  induction docs with
  | nil => rfl
  | cons d rest ih =>
    have hd : isDue today d = false := h d (List.mem_cons_self d rest)
    have hrest : ∀ x ∈ rest, isDue today x = false := fun x hx => h x (List.mem_cons_of_mem d hx)
    simp [sweepAux, hd, ih hrest]

/-- With `MAKE_WEBHOOK_URL` configured, every sentinel resolves to a dispatch
target (custom sentinels to their own URL, the rest to the central one). -/
theorem resolveTarget_isSome (env : CronEnv) (d : Sentinel) (u : String)
    (henv : env.makeWebhookUrl = some u) :
    ∃ up, resolveTarget env d = some up := by
  unfold resolveTarget
  split
  · exact ⟨_, rfl⟩
  · rw [henv]
    exact ⟨_, rfl⟩

theorem processRecord_returns_logs (env : CronEnv) (now : String) (d : SentinelDoc)
    (b : Bool) (u : String) (henv : env.makeWebhookUrl = some u) :
    (processRecord env now d (DispatchBehavior.returns b)).logs = [mkLogRecord now d b] := by
  obtain ⟨up, hres⟩ := resolveTarget_isSome env d.data u henv
  unfold processRecord
  rw [hres]
  cases b <;> rfl

theorem processRecord_returns_newStatus (env : CronEnv) (now : String) (d : SentinelDoc)
    (b : Bool) (u : String) (henv : env.makeWebhookUrl = some u) :
    (processRecord env now d (DispatchBehavior.returns b)).newStatus
      = (if b then some SentinelStatus.FIRED else none) := by
  obtain ⟨up, hres⟩ := resolveTarget_isSome env d.data u henv
  unfold processRecord
  rw [hres]
  cases b <;> rfl

/-- A unit whose promise rejects performs no status update and appends no log. -/
theorem processRecord_throws_eff (env : CronEnv) (now : String) (d : SentinelDoc) :
    (processRecord env now d DispatchBehavior.throws).newStatus = none
    ∧ (processRecord env now d DispatchBehavior.throws).logs = [] := by
  rcases hres : resolveTarget env d.data with _ | up <;> simp [processRecord, hres]

theorem applyOutcome_of_none {o : RecordOutcome} (doc : SentinelDoc)
    (h : o.newStatus = none) : applyOutcome o doc = doc := by
  unfold applyOutcome
  rw [h]

theorem mapIdxFrom_congr {α β : Type} (f g : Nat → α → β) (i : Nat) (l : List α)
    (h : ∀ k a, f k a = g k a) : mapIdxFrom f i l = mapIdxFrom g i l := by
  induction l generalizing i with
  | nil => rfl
  | cons a as ih => simp [mapIdxFrom, h, ih]

theorem mapIdxFrom_singleton_flatten {α β : Type} (g : Nat → α → β) (i : Nat)
    (l : List α) :
    (mapIdxFrom (fun k a => [g k a]) i l).flatten = mapIdxFrom g i l := by
  induction l generalizing i with
  | nil => rfl
  | cons a as ih => simp [mapIdxFrom, ih]

/-! ## Concrete fixtures used by the witnesses -/

/-- A due, pending, `custom`-method sentinel (the spec's §8 scenario). -/
def sampleSentinel : Sentinel :=
  { userId := "user@example.com"
    eventName := "Lease Renewal"
    triggerDate := "2025-06-15"
    originalClause := "Tenant must provide 90 days notice"
    webhookUrl := none
    notificationMethod := .custom
    notificationTarget := "https://hooks.example/alert"
    status := .PENDING
    createdAt := "2025-01-01T00:00:00.000Z" }

/-- The `sentinels` document holding `sampleSentinel`. -/
def sampleDoc : SentinelDoc := { id := "abc123", data := sampleSentinel }

/-- A second due, pending, `custom`-method sentinel. -/
def otherDoc : SentinelDoc :=
  { id := "def456", data := { sampleSentinel with eventName := "Deposit Return" } }

/-- A due, pending sentinel routed through the central dispatcher. -/
def slackDoc : SentinelDoc :=
  { id := "slk789"
    data := { sampleSentinel with notificationMethod := .slack
                                  notificationTarget := "ops@example.com" } }

/-- A sentinel already FIRED on its trigger date. -/
def firedDoc : SentinelDoc :=
  { id := "fired01", data := { sampleSentinel with status := .FIRED } }

/-- Environment with both secrets configured. -/
def sampleEnv : CronEnv :=
  { cronSecret := some "s3cr3t", makeWebhookUrl := some "https://make.example/hook" }

/-- Environment with `MAKE_WEBHOOK_URL` missing. -/
def noMakeEnv : CronEnv :=
  { cronSecret := some "s3cr3t", makeWebhookUrl := none }

/-- A fixed `new Date().toISOString()` value. -/
def sampleNow : String := "2025-06-15T00:00:05.000Z"

/-! ## Sweep-level guarantees -/

/-- C6: when the store query fails, the sweep aborts and the failure surfaces
to the caller as an error — no record's status is updated, no log entry is
written, and no partial processed count is returned. -/
theorem cronGET_query_failure_aborts (env : CronEnv) (now today : String)
    (authHeader : Option String) (beh : Nat → DispatchBehavior) (store : Store)
    (hauth : authHeader = some (expectedAuth env)) :
    cronGET env now today authHeader true beh store
      = (CronResponse.queryError, store, []) := by
  unfold cronGET
  rw [hauth]
  simp

/-- Witness for C6 on a concrete authorized request over a pending store. -/
theorem cronGET_query_failure_aborts_witness :
    cronGET sampleEnv sampleNow "2025-06-15" (some "Bearer s3cr3t") true
        (fun _ => DispatchBehavior.returns true) { sentinels := [sampleDoc], logs := [] }
      = (CronResponse.queryError, { sentinels := [sampleDoc], logs := [] }, []) :=
  cronGET_query_failure_aborts sampleEnv sampleNow "2025-06-15"
    (some "Bearer s3cr3t") (fun _ => DispatchBehavior.returns true)
    { sentinels := [sampleDoc], logs := [] } rfl

/-- C9: a request whose `Authorization` header is not exactly
`"Bearer " + CRON_SECRET` is answered with 401 Unauthorized, and the store is
untouched — the result is the same for every query outcome and every
dispatcher behaviour, so no query is issued and nothing is written. -/
theorem cronGET_unauthorized_untouched (env : CronEnv) (secret now today : String)
    (authHeader : Option String) (queryFails : Bool) (beh : Nat → DispatchBehavior)
    (store : Store) (hsec : env.cronSecret = some secret)
    (hauth : authHeader ≠ some ("Bearer " ++ secret)) :
    cronGET env now today authHeader queryFails beh store
      = (CronResponse.unauthorized, store, []) := by
  have hexp : expectedAuth env = "Bearer " ++ secret := by
    unfold expectedAuth envString
    rw [hsec]
  unfold cronGET
  rw [hexp, if_pos hauth]

/-- Witness for C9: a request with no `Authorization` header at all. -/
theorem cronGET_unauthorized_untouched_witness :
    cronGET sampleEnv sampleNow "2025-06-15" none true
        (fun _ => DispatchBehavior.returns true) { sentinels := [sampleDoc], logs := [] }
      = (CronResponse.unauthorized, { sentinels := [sampleDoc], logs := [] }, []) :=
  cronGET_unauthorized_untouched sampleEnv "s3cr3t" sampleNow "2025-06-15" none true
    (fun _ => DispatchBehavior.returns true) { sentinels := [sampleDoc], logs := [] }
    rfl (by simp)

/-- C7: when every record due today is already FIRED and no new due records
exist, a further sweep matches zero records, returns a processed count of
zero, and leaves the store unchanged. -/
theorem cronGET_idempotent_when_all_fired (env : CronEnv) (now today : String)
    (authHeader : Option String) (beh : Nat → DispatchBehavior) (store : Store)
    (hauth : authHeader = some (expectedAuth env))
    (hfired : ∀ d ∈ store.sentinels, d.data.triggerDate = today →
        d.data.status = SentinelStatus.FIRED) :
    cronGET env now today authHeader false beh store
      = (CronResponse.ok 0, store, []) := by
  have hno : ∀ d ∈ store.sentinels, isDue today d = false := by
    intro d hd
    rw [Bool.eq_false_iff, Ne, isDue_iff]
    rintro ⟨h1, h2⟩
    have hf := hfired d hd h1
    rw [hf] at h2
    exact SentinelStatus.noConfusion h2
  have hs := runSweep_no_due env now today beh store.sentinels hno
  unfold cronGET
  rw [hauth]
  simp [hs]

/-- Witness for C7 on a store whose only due record is already FIRED. -/
theorem cronGET_idempotent_when_all_fired_witness :
    cronGET sampleEnv sampleNow "2025-06-15" (some "Bearer s3cr3t") false
        (fun _ => DispatchBehavior.returns true) { sentinels := [firedDoc], logs := [] }
      = (CronResponse.ok 0, { sentinels := [firedDoc], logs := [] }, []) :=
  cronGET_idempotent_when_all_fired sampleEnv sampleNow "2025-06-15"
    (some "Bearer s3cr3t") (fun _ => DispatchBehavior.returns true)
    { sentinels := [firedDoc], logs := [] } rfl (by decide)

/-- C8: with `MAKE_WEBHOOK_URL` absent, a matched record whose
`notificationMethod` is not `custom` is skipped entirely — its unit makes no
dispatch attempt, writes no log entry, and leaves the status PENDING — yet the
record is still counted in the returned processed count. -/
theorem sweep_skips_noncustom_without_make_url (env : CronEnv) (now today : String)
    (docs : List SentinelDoc) (beh : Nat → DispatchBehavior) (j : Nat)
    (d : SentinelDoc) (henv : env.makeWebhookUrl = none)
    (hj : docs[j]? = some d) (hdue : isDue today d = true)
    (hm : d.data.notificationMethod ≠ NotificationMethod.custom) :
    (∀ b, processRecord env now d b
        = { newStatus := none, logs := [], sent := [], rejected := false })
    ∧ (runSweep env now today beh docs).docs[j]? = some d
    ∧ (runSweep env now today beh docs).matched = (dueDocs today docs).length
    ∧ d ∈ dueDocs today docs := by
  have hres : resolveTarget env d.data = none := by
    unfold resolveTarget
    rw [if_neg hm, henv]
  have hpr : ∀ b, processRecord env now d b
      = { newStatus := none, logs := [], sent := [], rejected := false } := by
    intro b
    unfold processRecord
    rw [hres]
  refine ⟨hpr, ?_, sweepAux_matched env now today beh 0 docs, ?_⟩
  · unfold runSweep
    rw [sweepAux_docs_getElem? env now today beh 0 docs j, hj]
    simp [hdue, hpr, applyOutcome]
  · exact List.mem_filter.mpr ⟨List.getElem?_mem hj, hdue⟩

/-- Witness for C8: a due slack-method record under a missing
`MAKE_WEBHOOK_URL`. -/
theorem sweep_skips_noncustom_without_make_url_witness :
    (∀ b, processRecord noMakeEnv sampleNow slackDoc b
        = { newStatus := none, logs := [], sent := [], rejected := false })
    ∧ (runSweep noMakeEnv sampleNow "2025-06-15"
        (fun _ => DispatchBehavior.returns true) [slackDoc]).docs[0]? = some slackDoc
    ∧ (runSweep noMakeEnv sampleNow "2025-06-15"
        (fun _ => DispatchBehavior.returns true) [slackDoc]).matched
        = (dueDocs "2025-06-15" [slackDoc]).length
    ∧ slackDoc ∈ dueDocs "2025-06-15" [slackDoc] :=
  sweep_skips_noncustom_without_make_url noMakeEnv sampleNow "2025-06-15" [slackDoc]
    (fun _ => DispatchBehavior.returns true) 0 slackDoc rfl rfl (by decide) (by decide)

/-- A unit either leaves its own document unchanged, or — exactly when its
dispatch resolved with `true` — sets that document's status to FIRED. -/
theorem applyOutcome_processRecord (env : CronEnv) (now : String)
    (old : SentinelDoc) (b : DispatchBehavior) :
    applyOutcome (processRecord env now old b) old = old
    ∨ (applyOutcome (processRecord env now old b) old
        = { old with data := { old.data with status := SentinelStatus.FIRED } }
        ∧ b = DispatchBehavior.returns true) := by
  rcases hres : resolveTarget env old.data with _ | up
  · left
    simp [processRecord, hres, applyOutcome]
  · rcases b with ok | _
    · cases ok
      · left
        simp [processRecord, hres, applyOutcome]
      · right
        exact ⟨by simp [processRecord, hres, applyOutcome], rfl⟩
    · left
      simp [processRecord, hres, applyOutcome]

/-- C5: the only status transition a sweep ever performs on a document is
PENDING → FIRED, and only when that document's own dispatch returned `true`;
a FIRED document is never changed, in particular never set back to PENDING. -/
theorem sweep_only_transition_pending_to_fired (env : CronEnv) (now today : String)
    (docs : List SentinelDoc) (beh : Nat → DispatchBehavior) (j : Nat)
    (old new : SentinelDoc) (hold : docs[j]? = some old)
    (hnew : (runSweep env now today beh docs).docs[j]? = some new) :
    (old.data.status = SentinelStatus.FIRED → new = old)
    ∧ (new ≠ old →
        old.data.status = SentinelStatus.PENDING
        ∧ new = { old with data := { old.data with status := SentinelStatus.FIRED } }
        ∧ beh (dueRank today docs j) = DispatchBehavior.returns true) := by
  unfold runSweep at hnew
  rw [sweepAux_docs_getElem? env now today beh 0 docs j, hold] at hnew
  simp only [Option.map_some', Option.some.injEq, Nat.zero_add] at hnew
  by_cases hd : isDue today old
  · rw [if_pos hd] at hnew
    obtain ⟨h1, h2⟩ := isDue_iff.mp hd
    constructor
    · intro hf
      rw [h2] at hf
      exact SentinelStatus.noConfusion hf
    · intro hne
      refine ⟨h2, ?_⟩
      rcases applyOutcome_processRecord env now old (beh (dueRank today docs j))
        with h | ⟨h, hb⟩
      · exact absurd (h.symm.trans hnew).symm hne
      · exact ⟨(h.symm.trans hnew).symm, hb⟩
  · rw [if_neg hd] at hnew
    constructor
    · intro _
      exact hnew.symm
    · intro hne
      exact absurd hnew.symm hne

/-- Witness for C5 on a sweep that fires the single due record. -/
theorem sweep_only_transition_pending_to_fired_witness :
    (sampleDoc.data.status = SentinelStatus.FIRED →
        ({ sampleDoc with
            data := { sampleDoc.data with status := SentinelStatus.FIRED } } : SentinelDoc)
          = sampleDoc)
    ∧ (({ sampleDoc with
            data := { sampleDoc.data with status := SentinelStatus.FIRED } } : SentinelDoc)
          ≠ sampleDoc →
        sampleDoc.data.status = SentinelStatus.PENDING
        ∧ ({ sampleDoc with
              data := { sampleDoc.data with status := SentinelStatus.FIRED } } : SentinelDoc)
            = { sampleDoc with
                data := { sampleDoc.data with status := SentinelStatus.FIRED } }
        ∧ (fun _ => DispatchBehavior.returns true) (dueRank "2025-06-15" [sampleDoc] 0)
            = DispatchBehavior.returns true) :=
  sweep_only_transition_pending_to_fired sampleEnv sampleNow "2025-06-15" [sampleDoc]
    (fun _ => DispatchBehavior.returns true) 0 sampleDoc
    { sampleDoc with data := { sampleDoc.data with status := SentinelStatus.FIRED } }
    rfl (by decide)

theorem applyOutcome_of_some {o : RecordOutcome} (doc : SentinelDoc)
    (s : SentinelStatus) (h : o.newStatus = some s) :
    applyOutcome o doc = { doc with data := { doc.data with status := s } } := by
  unfold applyOutcome
  rw [h]

/-- C3: a unit whose promise rejects does not disturb any other record — the
sweep still counts every matched record, every other unit's log output and
document update are exactly what they would have been anyway, and the
rejected unit's own document is left unchanged.  The sweep's aggregate
reflects the settlement of every unit. -/
theorem sweep_isolates_thrown_unit (env : CronEnv) (now today : String)
    (docs : List SentinelDoc) (beh : Nat → DispatchBehavior) (i0 : Nat) :
    ((runSweep env now today
        (fun k => if k = i0 then DispatchBehavior.throws else beh k) docs).matched
        = (dueDocs today docs).length)
    ∧ ((runSweep env now today
        (fun k => if k = i0 then DispatchBehavior.throws else beh k) docs).logs
        = (mapIdxFrom (fun k d =>
              if k = i0 then [] else (processRecord env now d (beh k)).logs) 0
            (dueDocs today docs)).flatten)
    ∧ (∀ j, dueRank today docs j ≠ i0 →
        (runSweep env now today
            (fun k => if k = i0 then DispatchBehavior.throws else beh k) docs).docs[j]?
          = (runSweep env now today beh docs).docs[j]?)
    ∧ (∀ j d, docs[j]? = some d → isDue today d = true →
          dueRank today docs j = i0 →
        (runSweep env now today
            (fun k => if k = i0 then DispatchBehavior.throws else beh k) docs).docs[j]?
          = some d) := by
  refine ⟨sweepAux_matched env now today _ 0 docs, ?_, ?_, ?_⟩
  · rw [runSweep, sweepAux_logs]
    congr 1
    apply mapIdxFrom_congr
    intro k a
    by_cases hk : k = i0
    · subst hk
      rw [if_pos rfl, if_pos rfl]
      exact (processRecord_throws_eff env now a).2
    · rw [if_neg hk, if_neg hk]
  · intro j hj
    unfold runSweep
    rw [sweepAux_docs_getElem? env now today
        (fun k => if k = i0 then DispatchBehavior.throws else beh k) 0 docs j,
      sweepAux_docs_getElem? env now today beh 0 docs j]
    cases hd : docs[j]? with
    | none => rfl
    | some d =>
      simp only [Option.map_some', Option.some.injEq, Nat.zero_add]
      by_cases hdue : isDue today d
      · simp [hdue, hj]
      · simp [hdue]
  · intro j d hjd hdue hrank
    unfold runSweep
    rw [sweepAux_docs_getElem? env now today
        (fun k => if k = i0 then DispatchBehavior.throws else beh k) 0 docs j, hjd]
    simp only [Option.map_some', Option.some.injEq, Nat.zero_add, hrank, hdue,
      if_true, if_pos rfl]
    exact applyOutcome_of_none d (processRecord_throws_eff env now d).1

/-- Witness for C3: two due records, the first unit rejecting; the sweep still
counts both and the second still fires. -/
theorem sweep_isolates_thrown_unit_witness :
    ((runSweep sampleEnv sampleNow "2025-06-15"
        (fun k => if k = 0 then DispatchBehavior.throws
                  else (fun _ => DispatchBehavior.returns true) k)
        [sampleDoc, otherDoc]).matched = 2)
    ∧ ((runSweep sampleEnv sampleNow "2025-06-15"
        (fun k => if k = 0 then DispatchBehavior.throws
                  else (fun _ => DispatchBehavior.returns true) k)
        [sampleDoc, otherDoc]).docs[0]? = some sampleDoc)
    ∧ ((runSweep sampleEnv sampleNow "2025-06-15"
        (fun k => if k = 0 then DispatchBehavior.throws
                  else (fun _ => DispatchBehavior.returns true) k)
        [sampleDoc, otherDoc]).docs[1]?
        = (runSweep sampleEnv sampleNow "2025-06-15"
            (fun _ => DispatchBehavior.returns true) [sampleDoc, otherDoc]).docs[1]?) := by
  refine ⟨?_, ?_, ?_⟩
  · exact (sweep_isolates_thrown_unit sampleEnv sampleNow "2025-06-15"
      [sampleDoc, otherDoc] (fun _ => DispatchBehavior.returns true) 0).1.trans (by decide)
  · exact (sweep_isolates_thrown_unit sampleEnv sampleNow "2025-06-15"
      [sampleDoc, otherDoc] (fun _ => DispatchBehavior.returns true) 0).2.2.2 0 sampleDoc
      rfl (by decide) (by decide)
  · exact (sweep_isolates_thrown_unit sampleEnv sampleNow "2025-06-15"
      [sampleDoc, otherDoc] (fun _ => DispatchBehavior.returns true) 0).2.2.1 1 (by decide)

/-- C1 (amended): over N due-and-pending records whose dispatches resolve with
`f`, a sweep counts exactly N, fires exactly the records whose dispatch
returned `true` while the rest remain PENDING, and appends exactly one log
entry per record — SUCCESS or FAILED matching the dispatch result, FAILED
entries carrying the fixed note `"Webhook dispatch failed"` — whose payload is
the record summary `\x7bmethod, event, date\x7d`, not the dispatched payload. -/
theorem sweep_batch_outcome (env : CronEnv) (now today u : String) (f : Nat → Bool)
    (docs : List SentinelDoc) (henv : env.makeWebhookUrl = some u) :
    ((runSweep env now today (fun i => DispatchBehavior.returns (f i)) docs).matched
        = (dueDocs today docs).length)
    ∧ ((runSweep env now today (fun i => DispatchBehavior.returns (f i)) docs).logs
        = mapIdxFrom (fun i d =>
            { sentinelId := d.id
              firedAt := now
              status := if f i then LogStatus.SUCCESS else LogStatus.FAILED
              payload := if f i then successLogPayload d.data
                         else failureLogPayload d.data }) 0 (dueDocs today docs))
    ∧ (∀ j d, docs[j]? = some d → isDue today d = true →
        (runSweep env now today (fun i => DispatchBehavior.returns (f i)) docs).docs[j]?
          = some (if f (dueRank today docs j)
              then { d with data := { d.data with status := SentinelStatus.FIRED } }
              else d))
    ∧ (∀ j d, docs[j]? = some d → isDue today d = true →
          f (dueRank today docs j) = false →
        (runSweep env now today (fun i => DispatchBehavior.returns (f i)) docs).docs[j]?
            = some d
          ∧ d.data.status = SentinelStatus.PENDING) := by
  have hpos : ∀ j d, docs[j]? = some d → isDue today d = true →
      (runSweep env now today (fun i => DispatchBehavior.returns (f i)) docs).docs[j]?
        = some (if f (dueRank today docs j)
            then { d with data := { d.data with status := SentinelStatus.FIRED } }
            else d) := by
    intro j d hjd hdue
    unfold runSweep
    rw [sweepAux_docs_getElem? env now today (fun i => DispatchBehavior.returns (f i))
        0 docs j, hjd]
    simp only [Option.map_some', Option.some.injEq, Nat.zero_add, hdue, if_true]
    cases hf : f (dueRank today docs j)
    · rw [applyOutcome_of_none d
        (by rw [processRecord_returns_newStatus env now d false u henv]; rfl)]
      simp
    · rw [applyOutcome_of_some d SentinelStatus.FIRED
        (by rw [processRecord_returns_newStatus env now d true u henv]; rfl)]
      simp
  refine ⟨sweepAux_matched env now today _ 0 docs, ?_, hpos, ?_⟩
  · rw [runSweep, sweepAux_logs]
    rw [mapIdxFrom_congr _ (fun k d => [mkLogRecord now d (f k)]) 0 (dueDocs today docs)
      (fun k a => processRecord_returns_logs env now a (f k) u henv)]
    rw [mapIdxFrom_singleton_flatten]
    rfl
  · intro j d hjd hdue hf
    refine ⟨?_, (isDue_iff.mp hdue).2⟩
    rw [hpos j d hjd hdue, hf]
    simp

/-- Witness for C1 on a single due record whose dispatch succeeds. -/
theorem sweep_batch_outcome_witness :
    ((runSweep sampleEnv sampleNow "2025-06-15"
        (fun i => DispatchBehavior.returns ((fun _ => true) i)) [sampleDoc]).matched = 1)
    ∧ ((runSweep sampleEnv sampleNow "2025-06-15"
        (fun i => DispatchBehavior.returns ((fun _ => true) i)) [sampleDoc]).docs[0]?
        = some { sampleDoc with
            data := { sampleDoc.data with status := SentinelStatus.FIRED } }) := by
  refine ⟨?_, ?_⟩
  · exact (sweep_batch_outcome sampleEnv sampleNow "2025-06-15"
      "https://make.example/hook" (fun _ => true) [sampleDoc] rfl).1.trans (by decide)
  · have h := (sweep_batch_outcome sampleEnv sampleNow "2025-06-15"
      "https://make.example/hook" (fun _ => true) [sampleDoc] rfl).2.2.1 0 sampleDoc
      rfl (by decide)
    simpa using h

/-- Counterexample to C1 as stated: the claim says SUCCESS log entries contain
the payload that was sent, but for the single due custom record the sweep
dispatches `\x7bevent, date, clause\x7d` to the user's URL while logging the summary
`\x7bmethod, event, date\x7d` — the unique log entry's payload differs from the
unique dispatched payload. -/
theorem sweep_batch_outcome_counterexample :
    ((runSweep sampleEnv sampleNow "2025-06-15"
        (fun _ => DispatchBehavior.returns true) [sampleDoc]).logs.map LogRecord.payload
      ≠ (runSweep sampleEnv sampleNow "2025-06-15"
        (fun _ => DispatchBehavior.returns true) [sampleDoc]).sent.map Prod.snd)
    ∧ ((runSweep sampleEnv sampleNow "2025-06-15"
        (fun _ => DispatchBehavior.returns true) [sampleDoc]).logs.map LogRecord.status
        = [LogStatus.SUCCESS])
    ∧ ((runSweep sampleEnv sampleNow "2025-06-15"
        (fun _ => DispatchBehavior.returns true) [sampleDoc]).logs.map LogRecord.payload
        = [[("method", "custom"), ("event", "Lease Renewal"), ("date", "2025-06-15")]])
    ∧ ((runSweep sampleEnv sampleNow "2025-06-15"
        (fun _ => DispatchBehavior.returns true) [sampleDoc]).sent.map Prod.snd
        = [[("event", "Lease Renewal"), ("date", "2025-06-15"),
            ("clause", "Tenant must provide 90 days notice")]]) := by
  refine ⟨by decide, by decide, by decide, by decide⟩

end LeaseSentinel
